import Mathlib

/-!
Verification development for the desktop-browserbase repository.

The definitions below are a shallow embedding of the session / tab
synchronization layer (`src/main/session.ts`), the Browserbase REST client
(`BrowserbaseClient`), the reconnect state machine and the IPC command
surface.  Machine-level effects (remote CDP calls, timers, IPC sends,
console logging) are modelled as explicit data: pages are values, timers
become recorded delay lists, thrown JS exceptions become `Except.error`,
and `undefined`/absent JSON fields become `Option`.  Fields of
`SessionManager` that no theorem touches (viewport dimensions, the Electron
window handle) are omitted from the state record.
-/

/-- A remote Playwright page as observed by `SessionManager.syncTabs`.
`ref` models JavaScript object identity (used by `pages.indexOf`).
`title = none` models `await page.title()` throwing while the page is
loading; `page.url()` is a synchronous accessor and is modelled as a
plain string. -/
structure RemotePage where
  ref : Nat
  title : Option String
  url : String
  deriving DecidableEq

/-- The `TabInfo` record emitted to the renderer (src/shared/types). -/
structure TabInfo where
  id : String
  targetId : String
  title : String
  url : String
  active : Bool
  favicon : String
  deriving DecidableEq

/-- The mutable state of `SessionManager` that the tab operations touch. -/
structure SessionState where
  pages : List RemotePage
  tabs : List TabInfo
  currentUrl : String
  activeTabIndex : Int
  deriving DecidableEq

/-- Initial field values of `SessionManager` (`tabs = []`, `currentUrl = ""`,
`activeTabIndex = 0`); before a connection there are no remote pages. -/
def initialState : SessionState :=
  { pages := [], tabs := [], currentUrl := "", activeTabIndex := 0 }

/-- A concrete one-page state used to instantiate theorems. -/
def sampleState1 : SessionState :=
  { pages := [⟨0, some "a", "https://a.com"⟩]
    tabs := []
    currentUrl := ""
    activeTabIndex := 0 }

/-- A concrete two-page state (second page still loading) used to
instantiate theorems. -/
def sampleState2 : SessionState :=
  { pages := [⟨0, some "Example", "https://example.com"⟩, ⟨1, none, ""⟩]
    tabs := []
    currentUrl := ""
    activeTabIndex := 0 }

/-- A concrete three-page state with active index 1 used to instantiate
theorems. -/
def sampleState3 : SessionState :=
  { pages := [⟨0, some "a", "https://a.com"⟩, ⟨1, some "b", "https://b.com"⟩,
              ⟨2, some "c", "https://c.com"⟩]
    tabs := []
    currentUrl := ""
    activeTabIndex := 1 }

/-- JavaScript `String.prototype.startsWith`, modelled on character
lists (the core `String` version does not reduce in the kernel). -/
def strStartsWith (s pat : String) : Bool :=
  pat.toList.isPrefixOf s.toList

/-- JavaScript `String.prototype.includes` with a one-character needle. -/
def strContainsChar (s : String) (c : Char) : Bool :=
  s.toList.contains c

/-- Shallow model of `new URL(url).hostname` (a platform builtin) for
http(s) URLs; `none` models the constructor throwing on unparsable input. -/
def urlHostname (url : String) : Option String :=
  let cs := url.toList
  let rest : Option (List Char) :=
    if "https://".toList.isPrefixOf cs then some (cs.drop 8)
    else if "http://".toList.isPrefixOf cs then some (cs.drop 7)
    else none
  match rest with
  | none => none
  | some r =>
    let host := r.takeWhile fun c =>
      !(c == '/') && !(c == '?') && !(c == '#') && !(c == ':')
    if host.isEmpty then none else some (String.mk host)

/-- `SessionManager.getFaviconUrl`: builds a favicon lookup URL from the
page hostname; the catch branch returns the empty string. -/
def getFaviconUrl (url : String) : String :=
  match urlHostname url with
  | some host => "https://www.google.com/s2/favicons?domain=" ++ host ++ "&sz=32"
  | none => ""

/-- The clamp at the top of `SessionManager.syncTabs`:
`if (activeTabIndex >= pages.length) activeTabIndex = Math.max(0, pages.length - 1)`. -/
def clampIndex (numPages : Nat) (idx : Int) : Int :=
  if (numPages : Int) ≤ idx then max 0 ((numPages : Int) - 1) else idx

/-- One entry of the mapping inside `SessionManager.syncTabs`.  If
`page.title()` throws, neither `title` nor `url` is assigned and both
fall back (`"New Tab"` / `"about:blank"`); the favicon is recomputed from
the (possibly empty) url string. -/
def mkTab (activeIdx : Int) (i : Nat) (p : RemotePage) : TabInfo :=
  let title := match p.title with | some t => t | none => ""
  let url := match p.title with | some _ => p.url | none => ""
  { id := "tab-" ++ toString i
    targetId := "target-" ++ toString i
    title := if title == "" then "New Tab" else title
    url := if url == "" then "about:blank" else url
    active := (i : Int) == activeIdx
    favicon := getFaviconUrl url }

/-- `SessionManager.syncTabs`: clamp the active index, regenerate the
`TabInfo` sequence from the open pages, refresh `currentUrl` from the
active page. -/
def syncTabs (st : SessionState) : SessionState :=
  let idx := clampIndex st.pages.length st.activeTabIndex
  let tabs := st.pages.enum.map fun ip => mkTab idx ip.1 ip.2
  let currentUrl :=
    if 0 ≤ idx then
      match st.pages.get? idx.toNat with
      | some p => p.url
      | none => st.currentUrl
    else st.currentUrl
  { st with tabs := tabs, currentUrl := currentUrl, activeTabIndex := idx }

/-- Model of the JavaScript `String.prototype.replace` with a plain-string
pattern: removes the first occurrence of `pat` (the source replaces it
with the empty string). -/
def removeFirst (pat : List Char) : List Char → List Char
  | [] => []
  | c :: cs =>
    if pat.isPrefixOf (c :: cs) then (c :: cs).drop pat.length
    else c :: removeFirst pat cs

/-- Model of the JavaScript `parseInt(s, 10)` builtin: skip leading
whitespace, optional sign, then leading decimal digits; `none` models
`NaN`. -/
def parseIntJS (s : String) : Option Int :=
  let cs := s.toList.dropWhile Char.isWhitespace
  let signAndRest : Int × List Char :=
    match cs with
    | '-' :: rest => (-1, rest)
    | '+' :: rest => (1, rest)
    | _ => (1, cs)
  let digits := signAndRest.2.takeWhile Char.isDigit
  if digits.isEmpty then none
  else some (signAndRest.1 * (digits.foldl (fun n c => n * 10 + (c.toNat - 48)) 0 : Nat))

/-- `parseInt(tabId.replace("tab-", ""), 10)` as used by
`SessionManager.closeTab` and `SessionManager.switchTab`. -/
def parseTabId (tabId : String) : Option Int :=
  parseIntJS (String.mk (removeFirst "tab-".toList tabId.toList))

/-- `SessionManager.closeTab`: a close happens only when `pages[tabIndex]`
exists and more than one page is open; then the page is removed, the
active index is decremented (floored at zero) when the closed index is at
or below it, and `syncTabs` runs.  The deferred debug-URL fetch is an
external effect and carries no state change. -/
def closeTab (st : SessionState) (tabId : String) : SessionState :=
  match parseTabId tabId with
  | none => st
  | some i =>
    if 0 ≤ i ∧ i < (st.pages.length : Int) ∧ 1 < st.pages.length then
      let pages1 := st.pages.eraseIdx i.toNat
      let idx1 :=
        if i ≤ st.activeTabIndex then max 0 (st.activeTabIndex - 1)
        else st.activeTabIndex
      syncTabs { st with pages := pages1, activeTabIndex := idx1 }
    else st

/-- `SessionManager.switchTab`: when `pages[tabIndex]` exists the page is
brought to the foreground (remote effect), the active index and
`currentUrl` are updated, and `syncTabs` runs. -/
def switchTab (st : SessionState) (tabId : String) : SessionState :=
  match parseTabId tabId with
  | none => st
  | some i =>
    if 0 ≤ i ∧ i < (st.pages.length : Int) then
      let url :=
        match st.pages.get? i.toNat with
        | some p => p.url
        | none => st.currentUrl
      syncTabs { st with activeTabIndex := i, currentUrl := url }
    else st

/-- `SessionManager.newTab`: a fresh page is appended by the remote
context, `activeTabIndex := pages.indexOf(newPage)` (reference equality,
modelled by the `ref` field; `-1` models the JavaScript not-found value),
the new page is navigated to the default URL, and `syncTabs` runs. -/
def newTab (st : SessionState) (fresh : RemotePage) (defaultUrl : String) : SessionState :=
  let pages0 := st.pages ++ [fresh]
  let j := pages0.findIdx fun q => q.ref == fresh.ref
  let idx : Int := if j < pages0.length then (j : Int) else -1
  let pages1 := st.pages ++ [{ fresh with url := defaultUrl }]
  syncTabs { st with pages := pages1, activeTabIndex := idx }

/-- The URI-unreserved characters that the JavaScript `encodeURIComponent`
builtin leaves unescaped. -/
def isUriUnreserved (c : Char) : Bool :=
  c.isAlphanum || c == '-' || c == '_' || c == '.' || c == '!' || c == '~' ||
    c == '*' || c == Char.ofNat 39 || c == '(' || c == ')'

/-- Uppercase hexadecimal digit. -/
def hexDigitChar (n : Nat) : Char :=
  if n < 10 then Char.ofNat (48 + n) else Char.ofNat (55 + n)

/-- Percent-escape of one byte, uppercase, as produced by
`encodeURIComponent`. -/
def percentEncodeByte (b : Nat) : String :=
  "%" ++ String.singleton (hexDigitChar (b / 16 % 16)) ++
    String.singleton (hexDigitChar (b % 16))

/-- UTF-8 byte sequence of one code point. -/
def utf8Bytes (c : Char) : List Nat :=
  let n := c.toNat
  if n < 128 then [n]
  else if n < 2048 then [192 + n / 64, 128 + n % 64]
  else if n < 65536 then [224 + n / 4096, 128 + n / 64 % 64, 128 + n % 64]
  else [240 + n / 262144, 128 + n / 4096 % 64, 128 + n / 64 % 64, 128 + n % 64]

/-- Model of the JavaScript `encodeURIComponent` builtin. -/
def encodeURIComponent (s : String) : String :=
  s.toList.foldl
    (fun acc c =>
      if isUriUnreserved c then acc.push c
      else acc ++ String.join ((utf8Bytes c).map percentEncodeByte))
    ""

/-- The URL normalization at the top of `SessionManager.navigateTo`: keep
inputs starting with `http://` or `https://`; prefix `https://` when the
input contains a dot and no space character; otherwise rewrite into a
Google search query URL. -/
def normalizeUrl (url : String) : String :=
  if !(strStartsWith url "http://") && !(strStartsWith url "https://") then
    if strContainsChar url '.' && !(strContainsChar url ' ') then "https://" ++ url
    else "https://www.google.com/search?q=" ++ encodeURIComponent url
  else url

/-- Spec-side definition, following the claim wording rather than the
source: a character allowed after the first one in a URI scheme. -/
def isSchemeTailChar (c : Char) : Bool :=
  c.isAlphanum || c == '+' || c == '-' || c == '.'

/-- Spec-side definition: the remainder of a URI scheme followed by a
colon. -/
def schemeTailEndsColon : List Char → Bool
  | [] => false
  | c :: cs => if c == ':' then true else isSchemeTailChar c && schemeTailEndsColon cs

/-- Spec-side definition, following the claim wording rather than the
source: the input "already has a scheme" in the RFC 3986 sense (a letter,
then letters, digits, plus, minus or dot, then a colon). -/
def specHasScheme (s : String) : Bool :=
  match s.toList with
  | [] => false
  | c :: cs => c.isAlpha && schemeTailEndsColon cs

/-- Outcome of one `fetch` call as seen by
`BrowserbaseClient.fetchWithRetry`: an HTTP response or a thrown network
error. -/
inductive FetchOutcome where
  | resp (status : Nat) (body : String)
  | netErr (msg : String)
  deriving DecidableEq

/-- The part of a `Response` that the client reads. -/
structure HttpResponse where
  status : Nat
  body : String
  deriving DecidableEq

/-- `response.ok`: status in the 200..299 range. -/
def responseOk (status : Nat) : Bool := 200 ≤ status && status < 300

/-- `RETRY_DELAY_MS` from the client module. -/
def RETRY_DELAY_MS : Nat := 1000

/-- `MAX_RETRIES` from the client module. -/
def MAX_RETRIES : Nat := 3

deriving instance DecidableEq for Except

/-- Observable behaviour of a `fetchWithRetry` run: how many `fetch`
calls were made, which sleeps were performed, and the returned response
or thrown error. -/
structure FetchTrace where
  fetchCalls : Nat
  sleeps : List Nat
  result : Except String HttpResponse
  deriving DecidableEq

/-- The retry loop of `BrowserbaseClient.fetchWithRetry`, indexed by the
number of remaining loop iterations (`retries - attempt`).  4xx other
than 429 and every `response.ok` response return immediately; 429 and
5xx sleep `RETRY_DELAY_MS * 2 ^ attempt` and retry; a thrown fetch error
is remembered as `lastError`, sleeps, and retries.  When the loop ends
the remembered error or the generic message is thrown. -/
def fetchWithRetryLoop (outcomes : Nat → FetchOutcome) (lastError : Option String)
    (attempt : Nat) : Nat → FetchTrace
  | 0 =>
    { fetchCalls := 0, sleeps := [],
      result := Except.error
        (match lastError with
         | some m => m
         | none => "Request failed after retries") }
  | remaining + 1 =>
    match outcomes attempt with
    | FetchOutcome.resp s b =>
      if 400 ≤ s && s < 500 && s != 429 then
        { fetchCalls := 1, sleeps := [], result := Except.ok ⟨s, b⟩ }
      else if responseOk s then
        { fetchCalls := 1, sleeps := [], result := Except.ok ⟨s, b⟩ }
      else if s == 429 || 500 ≤ s then
        let delay := RETRY_DELAY_MS * 2 ^ attempt
        let t := fetchWithRetryLoop outcomes lastError (attempt + 1) remaining
        { fetchCalls := t.fetchCalls + 1, sleeps := delay :: t.sleeps,
          result := t.result }
      else
        { fetchCalls := 1, sleeps := [], result := Except.ok ⟨s, b⟩ }
    | FetchOutcome.netErr m =>
      let delay := RETRY_DELAY_MS * 2 ^ attempt
      let t := fetchWithRetryLoop outcomes (some m) (attempt + 1) remaining
      { fetchCalls := t.fetchCalls + 1, sleeps := delay :: t.sleeps,
        result := t.result }

/-- `BrowserbaseClient.fetchWithRetry` run against a stream of fetch
outcomes. -/
def fetchWithRetry (outcomes : Nat → FetchOutcome) (retries : Nat) : FetchTrace :=
  fetchWithRetryLoop outcomes none 0 retries

/-- Observable behaviour of a `createSession` call; the successful branch
abstracts the parsed session object to `Unit` (the follow-up debug-URL
fetch is out of the modelled failure paths). -/
structure CreateSessionTrace where
  fetchCalls : Nat
  sleeps : List Nat
  result : Except String Unit
  deriving DecidableEq

/-- The status-specific error text built by
`BrowserbaseClient.createSession` for a non-ok response. -/
def createSessionErrorMessage (status : Nat) (body : String) : String :=
  if status == 401 then
    "Authentication failed. Please check your BROWSERBASE_API_KEY."
  else if status == 403 then
    "Access denied. Please check your BROWSERBASE_PROJECT_ID and API key permissions."
  else if status == 429 then
    "Rate limit exceeded. Please try again later."
  else
    "Failed to create Browserbase session: " ++ body

/-- `BrowserbaseClient.createSession`: posts through `fetchWithRetry`
(a thrown retry error propagates to the caller); a returned non-ok
response is mapped to a status-specific error message. -/
def createSession (outcomes : Nat → FetchOutcome) : CreateSessionTrace :=
  let t := fetchWithRetry outcomes MAX_RETRIES
  match t.result with
  | Except.error m => { fetchCalls := t.fetchCalls, sleeps := t.sleeps, result := Except.error m }
  | Except.ok r =>
    if responseOk r.status then
      { fetchCalls := t.fetchCalls, sleeps := t.sleeps, result := Except.ok () }
    else
      { fetchCalls := t.fetchCalls, sleeps := t.sleeps,
        result := Except.error (createSessionErrorMessage r.status r.body) }

/-- One page entry of the session debug endpoint's JSON. -/
structure DebugPage where
  id : String
  url : String
  debuggerFullscreenUrl : Option String
  debuggerUrl : Option String
  deriving DecidableEq

/-- The debug endpoint's JSON as read by `getDebugUrlForPage`. -/
structure DebugInfo where
  debuggerFullscreenUrl : Option String
  pages : Option (List DebugPage)
  deriving DecidableEq

/-- The outcome of the debug-endpoint fetch inside `getDebugUrlForPage`:
a thrown error (caught, yielding null), a non-ok response (yielding
null), or a parsed body. -/
inductive DebugFetch where
  | thrown (msg : String)
  | notOk (status : Nat)
  | ok (info : DebugInfo)
  deriving DecidableEq

/-- JavaScript truthiness of an optional string (`undefined` and the
empty string are falsy). -/
def jsTruthy (s : Option String) : Bool :=
  match s with
  | some v => v != ""
  | none => false

/-- `matchingPage.debuggerFullscreenUrl || matchingPage.debuggerUrl`. -/
def pageEmbedUrl (p : DebugPage) : Option String :=
  if jsTruthy p.debuggerFullscreenUrl then p.debuggerFullscreenUrl else p.debuggerUrl

/-- Appends `navbar=false` as the code does for every returned debug URL. -/
def withNavbarParam (u : String) : String :=
  if strContainsChar u '?' then u ++ "&navbar=false" else u ++ "?navbar=false"

/-- `BrowserbaseClient.getDebugUrlForPage`: find the page whose reported
URL equals `pageUrl`; return its embeddable URL if truthy; otherwise fall
back to the session-level `debuggerFullscreenUrl`; null when neither
exists.  Fetch errors and non-ok responses yield null. -/
def getDebugUrlForPage (fetchResult : DebugFetch) (pageUrl : String) : Option String :=
  match fetchResult with
  | DebugFetch.thrown _ => none
  | DebugFetch.notOk _ => none
  | DebugFetch.ok info =>
    let fromMatch : Option String :=
      match info.pages with
      | some ps =>
        match ps.find? (fun p => p.url == pageUrl) with
        | some mp =>
          let d := pageEmbedUrl mp
          if jsTruthy d then d else none
        | none => none
      | none => none
    match fromMatch with
    | some u => some (withNavbarParam u)
    | none =>
      if jsTruthy info.debuggerFullscreenUrl then
        match info.debuggerFullscreenUrl with
        | some b => some (withNavbarParam b)
        | none => none
      else none

/-- `maxReconnectAttempts` field of `SessionManager`. -/
def maxReconnectAttempts : Nat := 3

/-- The fixed reconnect delay (ms) passed to `setTimeout` in
`SessionManager.handleDisconnect`. -/
def reconnectDelayMs : Nat := 2000

/-- Observable behaviour of one run of the disconnect/reconnect cascade:
how many reconnection attempts were made, the delay before each, the
final value of the attempt counter, and how many terminal disconnected
notifications were sent. -/
structure ReconnectTrace where
  connectAttempts : Nat
  delays : List Nat
  finalAttempts : Nat
  disconnectNotices : Nat
  deriving DecidableEq

/-- `SessionManager.handleDisconnect`: while the attempt counter is below
the maximum, increment it, wait 2s, and try to reconnect; success resets
the counter to zero, failure re-enters `handleDisconnect`; once the
counter reaches the maximum, send the terminal disconnected notification.
`outcomes n` is the result of the attempt started when the counter read
`n`. -/
def handleDisconnect (outcomes : Nat → Bool) (reconnectAttempts : Nat) : ReconnectTrace :=
  if h : reconnectAttempts < maxReconnectAttempts then
    if outcomes reconnectAttempts then
      { connectAttempts := 1, delays := [reconnectDelayMs],
        finalAttempts := 0, disconnectNotices := 0 }
    else
      let t := handleDisconnect outcomes (reconnectAttempts + 1)
      { connectAttempts := t.connectAttempts + 1,
        delays := reconnectDelayMs :: t.delays,
        finalAttempts := t.finalAttempts,
        disconnectNotices := t.disconnectNotices }
  else
    { connectAttempts := 0, delays := [],
      finalAttempts := reconnectAttempts, disconnectNotices := 1 }
termination_by maxReconnectAttempts - reconnectAttempts
decreasing_by omega

/-- The uniform result object built by the IPC handlers in
`setupIpcHandlers`. -/
structure IpcResult where
  success : Bool
  error : Option String
  deriving DecidableEq

/-- One IPC handler body: `try { await op; return { success: true } }
catch (error) { return { success: false, error: error.message } }`. -/
def ipcHandle (op : Except String Unit) : IpcResult :=
  match op with
  | Except.ok _ => { success := true, error := none }
  | Except.error e => { success := false, error := some e }

/-- Error behaviour of `SessionManager.newTab`, `closeTab` and
`switchTab`: the whole body is wrapped in `try/catch` whose catch only
logs, so an internal failure never escapes the method. -/
def swallowErrors (body : Except String Unit) : Except String Unit :=
  match body with
  | Except.ok _ => Except.ok ()
  | Except.error _ => Except.ok ()

/-- Error behaviour of `SessionManager.navigateTo`: throws when no
browser is connected, and its catch rethrows the caught error. -/
def navigateErrorBehavior (connected : Bool) (body : Except String Unit) :
    Except String Unit :=
  if connected then
    match body with
    | Except.ok _ => Except.ok ()
    | Except.error e => Except.error e
  else Except.error "Browser not connected"

/-! ### Basic facts about the state operations -/

theorem syncTabs_activeTabIndex (st : SessionState) :
    (syncTabs st).activeTabIndex = clampIndex st.pages.length st.activeTabIndex := rfl

theorem syncTabs_pages (st : SessionState) : (syncTabs st).pages = st.pages := rfl

theorem clampIndex_nonneg (n : Nat) (idx : Int) (h : 0 ≤ idx) : 0 ≤ clampIndex n idx := by
  unfold clampIndex
  split <;> omega

theorem clampIndex_lt (n : Nat) (idx : Int) (hn : 0 < n) :
    clampIndex n idx < (n : Int) := by
  unfold clampIndex
  split <;> omega

theorem countP_enumFrom_fst (l : List RemotePage) (n : Nat) (j : Int) :
    ((List.enumFrom n l).countP fun ip => (ip.1 : Int) == j) =
      if (n : Int) ≤ j ∧ j < (n : Int) + l.length then 1 else 0 := by
  induction l generalizing n with
  | nil =>
    simp only [List.enumFrom_nil, List.countP_nil, List.length_nil]
    split <;> omega
  | cons a l ih =>
    rw [List.enumFrom_cons, List.countP_cons, ih (n + 1)]
    dsimp only
    simp only [beq_iff_eq, List.length_cons]
    split_ifs <;> omega

/-- C1: every synchronization pass produces a TabRecord sequence of the
same length as the page list, and whenever the sequence is non-empty
exactly one record has `active = true` (the active index having been
clamped into the valid range beforehand). -/
theorem syncTabs_length_and_active_unique (st : SessionState)
    (h : 0 ≤ st.activeTabIndex) :
    (syncTabs st).tabs.length = st.pages.length ∧
    (st.pages ≠ [] → ((syncTabs st).tabs.filter fun t => t.active).length = 1) := by
  have hlen : (syncTabs st).tabs.length = st.pages.length := by
    show (st.pages.enum.map _).length = _
    rw [List.length_map, List.enum_length]
  refine ⟨hlen, fun hne => ?_⟩
  have hpos : 0 < st.pages.length := List.length_pos.mpr hne
  have h0 : 0 ≤ clampIndex st.pages.length st.activeTabIndex :=
    clampIndex_nonneg _ _ h
  have h1 : clampIndex st.pages.length st.activeTabIndex < (st.pages.length : Int) :=
    clampIndex_lt _ _ hpos
  show ((st.pages.enum.map fun ip =>
      mkTab (clampIndex st.pages.length st.activeTabIndex) ip.1 ip.2).filter
      fun t => t.active).length = 1
  rw [← List.countP_eq_length_filter, List.countP_map]
  have hfun : ((fun t => t.active) ∘ fun ip : Nat × RemotePage =>
      mkTab (clampIndex st.pages.length st.activeTabIndex) ip.1 ip.2) =
      fun ip : Nat × RemotePage =>
        ((ip.1 : Int) == clampIndex st.pages.length st.activeTabIndex) := rfl
  rw [hfun]
  show ((List.enumFrom 0 st.pages).countP _) = 1
  rw [countP_enumFrom_fst]
  split
  · rfl
  · omega

/-- C1 witness: a concrete two-page state with a valid active index. -/
theorem syncTabs_length_and_active_unique_witness :
    (0 : Int) ≤ sampleState2.activeTabIndex ∧
    (syncTabs sampleState2).tabs.length = sampleState2.pages.length ∧
    ((syncTabs sampleState2).tabs.filter fun t => t.active).length = 1 :=
  ⟨by decide,
    (syncTabs_length_and_active_unique sampleState2 (by decide)).1,
    (syncTabs_length_and_active_unique sampleState2 (by decide)).2 (by decide)⟩

/-- C4: when `closeTab` actually performs a close (more than one page open
and a valid parsed index), closing an index at or below the active index
decrements the active index by exactly one floored at zero, and closing an
index above it leaves the active index unchanged. -/
theorem closeTab_active_index_adjust (st : SessionState) (tabId : String) (i : Int)
    (hp : parseTabId tabId = some i)
    (hi0 : 0 ≤ i) (hi1 : i < (st.pages.length : Int))
    (hmulti : 1 < st.pages.length)
    (ha0 : 0 ≤ st.activeTabIndex) (ha1 : st.activeTabIndex < (st.pages.length : Int)) :
    (i ≤ st.activeTabIndex →
      (closeTab st tabId).activeTabIndex = max 0 (st.activeTabIndex - 1)) ∧
    (st.activeTabIndex < i →
      (closeTab st tabId).activeTabIndex = st.activeTabIndex) := by
  have hguard : 0 ≤ i ∧ i < (st.pages.length : Int) ∧ 1 < st.pages.length :=
    ⟨hi0, hi1, hmulti⟩
  have hres : (closeTab st tabId).activeTabIndex =
      clampIndex (st.pages.eraseIdx i.toNat).length
        (if i ≤ st.activeTabIndex then max 0 (st.activeTabIndex - 1)
         else st.activeTabIndex) := by
    unfold closeTab
    rw [hp]
    dsimp only
    rw [if_pos hguard]
    exact syncTabs_activeTabIndex _
  have herase : (st.pages.eraseIdx i.toNat).length = st.pages.length - 1 := by
    rw [List.length_eraseIdx, if_pos (by omega)]
  rw [hres, herase]
  unfold clampIndex
  constructor
  · intro hle
    rw [if_pos hle]
    split <;> omega
  · intro hgt
    rw [if_neg (by omega)]
    split <;> omega

/-- C4 witness: closing tab 0 of three pages with active index 1. -/
theorem closeTab_active_index_adjust_witness :
    (closeTab sampleState3 "tab-0").activeTabIndex = max 0 ((1 : Int) - 1) :=
  (closeTab_active_index_adjust sampleState3 "tab-0" 0 (by decide) (by decide)
    (by decide) (by decide) (by decide) (by decide)).1 (by decide)

/-- C5: `closeTab` on a state with exactly one open page is a no-op, and
more generally the open-page count never reaches zero. -/
theorem closeTab_last_page_no_op (st : SessionState) (tabId : String) :
    (st.pages.length = 1 → closeTab st tabId = st) ∧
    (st.pages ≠ [] → (closeTab st tabId).pages ≠ []) := by
  constructor
  · intro hone
    unfold closeTab
    cases hp : parseTabId tabId with
    | none => rfl
    | some i =>
      dsimp only
      rw [if_neg (by omega)]
  · intro hne
    have hpos : 0 < st.pages.length := List.length_pos.mpr hne
    unfold closeTab
    cases hp : parseTabId tabId with
    | none => exact hne
    | some i =>
      dsimp only
      split
      · next hguard =>
        rw [syncTabs_pages]
        dsimp only
        rw [← List.length_pos, List.length_eraseIdx]
        split <;> omega
      · exact hne

/-- C5 witness: closing the only tab of a one-page session changes nothing. -/
theorem closeTab_last_page_no_op_witness :
    closeTab sampleState1 "tab-0" = sampleState1 :=
  (closeTab_last_page_no_op sampleState1 "tab-0").1 (by decide)

/-- C10: the active tab index starts at 0 and stays non-negative across
the synchronization clamp, the floored decrement in `closeTab`, the
guarded assignment in `switchTab` and the `indexOf` assignment in
`newTab`. -/
theorem activeTabIndex_invariant_nonneg :
    initialState.activeTabIndex = 0 ∧
    ∀ (st : SessionState) (tabId : String) (fresh : RemotePage) (defaultUrl : String),
      0 ≤ st.activeTabIndex →
      0 ≤ (syncTabs st).activeTabIndex ∧
      0 ≤ (closeTab st tabId).activeTabIndex ∧
      0 ≤ (switchTab st tabId).activeTabIndex ∧
      0 ≤ (newTab st fresh defaultUrl).activeTabIndex := by
  refine ⟨rfl, fun st tabId fresh defaultUrl h => ⟨?_, ?_, ?_, ?_⟩⟩
  · rw [syncTabs_activeTabIndex]
    exact clampIndex_nonneg _ _ h
  · unfold closeTab
    cases hp : parseTabId tabId with
    | none => exact h
    | some i =>
      dsimp only
      split
      · rw [syncTabs_activeTabIndex]
        apply clampIndex_nonneg
        dsimp only
        split <;> omega
      · exact h
  · unfold switchTab
    cases hp : parseTabId tabId with
    | none => exact h
    | some i =>
      dsimp only
      split
      · next hg =>
        rw [syncTabs_activeTabIndex]
        exact clampIndex_nonneg _ _ hg.1
      · exact h
  · unfold newTab
    rw [syncTabs_activeTabIndex]
    apply clampIndex_nonneg
    dsimp only
    have hfind : (st.pages ++ [fresh]).findIdx (fun q => q.ref == fresh.ref) <
        (st.pages ++ [fresh]).length :=
      List.findIdx_lt_length_of_exists ⟨fresh, by simp, by simp⟩
    rw [if_pos hfind]
    omega

/-- C10 witness: the invariant instantiated at a concrete one-page state. -/
theorem activeTabIndex_invariant_nonneg_witness :
    0 ≤ (syncTabs sampleState1).activeTabIndex ∧
    0 ≤ (closeTab sampleState1 "tab-0").activeTabIndex ∧
    0 ≤ (switchTab sampleState1 "tab-0").activeTabIndex ∧
    0 ≤ (newTab sampleState1 ⟨5, none, "about:blank"⟩
          "https://www.google.com").activeTabIndex :=
  activeTabIndex_invariant_nonneg.2 sampleState1 "tab-0" ⟨5, none, "about:blank"⟩
    "https://www.google.com" (by decide)

/-- C3 counterexample: "ftp://example.com" has a scheme in the claim's
sense but is not passed through unchanged, and "a.b" followed by a tab
and "c" contains whitespace but is treated as a bare domain rather than
as a search query. -/
theorem normalizeUrl_claim_counterexample :
    specHasScheme "ftp://example.com" = true ∧
    normalizeUrl "ftp://example.com" = "https://ftp://example.com" ∧
    normalizeUrl "ftp://example.com" ≠ "ftp://example.com" ∧
    "a.b\tc".toList.any Char.isWhitespace = true ∧
    normalizeUrl "a.b\tc" = "https://a.b\tc" ∧
    normalizeUrl "a.b\tc" ≠
      "https://www.google.com/search?q=" ++ encodeURIComponent "a.b\tc" :=
  ⟨by decide, by decide, by decide, by decide, by decide, by decide⟩

/-- C3 (amended): inputs starting with "http://" or "https://" pass
through unchanged; other inputs containing a dot and no space character
are prefixed with "https://"; all remaining inputs become a Google search
URL over the URL-encoded input; the claim's three concrete examples
behave as stated. -/
theorem normalizeUrl_cases (url : String) :
    ((strStartsWith url "http://" || strStartsWith url "https://") = true →
      normalizeUrl url = url) ∧
    ((strStartsWith url "http://" || strStartsWith url "https://") = false →
      (strContainsChar url '.' && !(strContainsChar url ' ')) = true →
      normalizeUrl url = "https://" ++ url) ∧
    ((strStartsWith url "http://" || strStartsWith url "https://") = false →
      (strContainsChar url '.' && !(strContainsChar url ' ')) = false →
      normalizeUrl url = "https://www.google.com/search?q=" ++ encodeURIComponent url) ∧
    normalizeUrl "example.com" = "https://example.com" ∧
    normalizeUrl "hello world" = "https://www.google.com/search?q=hello%20world" ∧
    normalizeUrl "https://x.com" = "https://x.com" := by
  refine ⟨?_, ?_, ?_, by decide, by decide, by decide⟩
  · intro h
    unfold normalizeUrl
    cases hx : strStartsWith url "http://" <;> cases hy : strStartsWith url "https://" <;>
      simp_all
  · intro h hdot
    unfold normalizeUrl
    cases hx : strStartsWith url "http://" <;> cases hy : strStartsWith url "https://" <;>
      simp_all
  · intro h hdot
    unfold normalizeUrl
    cases hx : strStartsWith url "http://" <;> cases hy : strStartsWith url "https://" <;>
      simp_all

/-- C3 witness: the bare-domain branch applied to "example.com". -/
theorem normalizeUrl_cases_witness :
    normalizeUrl "example.com" = "https://" ++ "example.com" :=
  (normalizeUrl_cases "example.com").2.1 (by decide) (by decide)

/-- C2 counterexample: under a sustained 503 the session creation fails
with the generic "Request failed after retries" message, which contains
neither the last HTTP status nor the response body. -/
theorem createSession_sustained503_counterexample :
    createSession (fun _ => FetchOutcome.resp 503 "Service Unavailable") =
      { fetchCalls := 3, sleeps := [1000, 2000, 4000],
        result := Except.error "Request failed after retries" } ∧
    ¬ ("503".toList <:+: "Request failed after retries".toList) ∧
    ¬ ("Service Unavailable".toList <:+: "Request failed after retries".toList) :=
  ⟨rfl, by decide, by decide⟩

/-- C2 (amended): under a sustained 503 the request is attempted exactly
MAX_RETRIES times, the performed sleeps double from 1000 ms and are
strictly increasing (the last one occurring after the final attempt), and
the call then fails with the generic "Request failed after retries"
error, which does not carry the HTTP status context. -/
theorem createSession_sustained503_behavior :
    (createSession (fun _ => FetchOutcome.resp 503 "Service Unavailable")).fetchCalls =
      MAX_RETRIES ∧
    (createSession (fun _ => FetchOutcome.resp 503 "Service Unavailable")).sleeps =
      [RETRY_DELAY_MS * 2 ^ 0, RETRY_DELAY_MS * 2 ^ 1, RETRY_DELAY_MS * 2 ^ 2] ∧
    List.Pairwise (· < ·)
      (createSession (fun _ => FetchOutcome.resp 503 "Service Unavailable")).sleeps ∧
    (createSession (fun _ => FetchOutcome.resp 503 "Service Unavailable")).result =
      Except.error "Request failed after retries" :=
  ⟨rfl, rfl, by decide, rfl⟩

/-- C9: a 404 response stops the retry loop immediately: exactly one
fetch call, no sleeps, and the session creation fails with the generic
non-2xx message. -/
theorem createSession_404_single_call (outcomes : Nat → FetchOutcome) (body : String)
    (h : outcomes 0 = FetchOutcome.resp 404 body) :
    createSession outcomes =
      { fetchCalls := 1, sleeps := [],
        result := Except.error ("Failed to create Browserbase session: " ++ body) } := by
  have ht : fetchWithRetry outcomes MAX_RETRIES =
      { fetchCalls := 1, sleeps := [], result := Except.ok ⟨404, body⟩ } := by
    show fetchWithRetryLoop outcomes none 0 (2 + 1) = _
    simp [fetchWithRetryLoop, h]
  unfold createSession
  rw [ht]
  simp [responseOk, createSessionErrorMessage]

/-- C9 witness: a concrete endpoint answering 404 with body "Not Found". -/
theorem createSession_404_single_call_witness :
    createSession (fun _ => FetchOutcome.resp 404 "Not Found") =
      { fetchCalls := 1, sleeps := [],
        result := Except.error ("Failed to create Browserbase session: " ++ "Not Found") } :=
  createSession_404_single_call (fun _ => FetchOutcome.resp 404 "Not Found") "Not Found" rfl

/-- C7: a disconnect triggers a 2s-delayed reconnection attempt only
while the attempt counter is below the maximum of 3; a successful attempt
resets the counter to zero; with every attempt failing, exactly 3
attempts are made and then the terminal disconnected notification fires
exactly once. -/
theorem handleDisconnect_reconnect_policy (outcomes : Nat → Bool) (ra : Nat) :
    (maxReconnectAttempts ≤ ra →
      handleDisconnect outcomes ra =
        { connectAttempts := 0, delays := [], finalAttempts := ra,
          disconnectNotices := 1 }) ∧
    (ra < maxReconnectAttempts → outcomes ra = true →
      handleDisconnect outcomes ra =
        { connectAttempts := 1, delays := [reconnectDelayMs], finalAttempts := 0,
          disconnectNotices := 0 }) ∧
    handleDisconnect (fun _ => false) 0 =
      { connectAttempts := 3, delays := [2000, 2000, 2000], finalAttempts := 3,
        disconnectNotices := 1 } := by
  refine ⟨?_, ?_, ?_⟩
  · intro h
    unfold handleDisconnect
    rw [dif_neg (by omega)]
  · intro h hsucc
    unfold handleDisconnect
    rw [dif_pos h, if_pos hsucc]
  · have h3 : handleDisconnect (fun _ => false) 3 =
        { connectAttempts := 0, delays := [], finalAttempts := 3,
          disconnectNotices := 1 } := by
      unfold handleDisconnect
      rw [dif_neg (by simp [maxReconnectAttempts])]
    have h2 : handleDisconnect (fun _ => false) 2 =
        { connectAttempts := 1, delays := [2000], finalAttempts := 3,
          disconnectNotices := 1 } := by
      unfold handleDisconnect
      rw [dif_pos (by simp [maxReconnectAttempts])]
      simp [h3, reconnectDelayMs]
    have h1 : handleDisconnect (fun _ => false) 1 =
        { connectAttempts := 2, delays := [2000, 2000], finalAttempts := 3,
          disconnectNotices := 1 } := by
      unfold handleDisconnect
      rw [dif_pos (by simp [maxReconnectAttempts])]
      simp [h2, reconnectDelayMs]
    unfold handleDisconnect
    rw [dif_pos (by simp [maxReconnectAttempts])]
    simp [h1, reconnectDelayMs]

/-- C7 witness: with the counter already at the maximum, no attempt is
made and the terminal notification fires once. -/
theorem handleDisconnect_reconnect_policy_witness :
    handleDisconnect (fun _ => true) 3 =
      { connectAttempts := 0, delays := [], finalAttempts := 3,
        disconnectNotices := 1 } :=
  (handleDisconnect_reconnect_policy (fun _ => true) 3).1 (by decide)

/-- C6: with a parsed debug response whose pages each carry an embeddable
URL, `getDebugUrlForPage` returns the matched page's URL when an exact
URL match exists, falls back to the session-level URL when no page
matches, and returns null only when no such URL exists at all. -/
theorem getDebugUrlForPage_match_and_fallback (info : DebugInfo) (ps : List DebugPage)
    (pageUrl : String) (hps : info.pages = some ps)
    (hall : ∀ p ∈ ps, jsTruthy (pageEmbedUrl p) = true) :
    (∀ mp, ps.find? (fun p => p.url == pageUrl) = some mp →
      ∃ u, pageEmbedUrl mp = some u ∧
        getDebugUrlForPage (DebugFetch.ok info) pageUrl = some (withNavbarParam u)) ∧
    (ps.find? (fun p => p.url == pageUrl) = none →
      ∀ b, info.debuggerFullscreenUrl = some b → b ≠ "" →
        getDebugUrlForPage (DebugFetch.ok info) pageUrl = some (withNavbarParam b)) ∧
    (getDebugUrlForPage (DebugFetch.ok info) pageUrl = none →
      ps.find? (fun p => p.url == pageUrl) = none ∧
      jsTruthy info.debuggerFullscreenUrl = false) := by
  have key : ∀ mp, ps.find? (fun p => p.url == pageUrl) = some mp →
      ∃ u, pageEmbedUrl mp = some u ∧
        getDebugUrlForPage (DebugFetch.ok info) pageUrl = some (withNavbarParam u) := by
    intro mp hfind
    have hmem : mp ∈ ps := List.mem_of_find?_eq_some hfind
    have htruthy := hall mp hmem
    obtain ⟨u, hu⟩ : ∃ u, pageEmbedUrl mp = some u := by
      cases he : pageEmbedUrl mp with
      | none => rw [he] at htruthy; simp [jsTruthy] at htruthy
      | some v => exact ⟨v, rfl⟩
    refine ⟨u, hu, ?_⟩
    rw [hu] at htruthy
    simp only [getDebugUrlForPage, hps, hfind, hu, htruthy, if_true]
  refine ⟨key, ?_, ?_⟩
  · intro hfind b hb hbne
    simp [getDebugUrlForPage, hps, hfind, hb, jsTruthy, hbne]
  · intro hnull
    cases hfind : ps.find? (fun p => p.url == pageUrl) with
    | some mp =>
      obtain ⟨u, hu, hres⟩ := key mp hfind
      rw [hres] at hnull
      exact Option.noConfusion hnull
    | none =>
      refine ⟨rfl, ?_⟩
      by_contra hT
      rw [Bool.not_eq_false] at hT
      cases hb : info.debuggerFullscreenUrl with
      | none => rw [hb] at hT; simp [jsTruthy] at hT
      | some b =>
        have hres : getDebugUrlForPage (DebugFetch.ok info) pageUrl =
            some (withNavbarParam b) := by
          rw [hb] at hT
          simp [getDebugUrlForPage, hps, hfind, hb, hT]
        rw [hres] at hnull
        exact Option.noConfusion hnull

/-- C6 witness: a one-page response with an exact URL match. -/
theorem getDebugUrlForPage_match_and_fallback_witness :
    ∃ u, pageEmbedUrl ⟨"p1", "https://a.com", some "https://live/p1?x=1", none⟩ = some u ∧
      getDebugUrlForPage
        (DebugFetch.ok ⟨some "https://live/root?a=1",
          some [⟨"p1", "https://a.com", some "https://live/p1?x=1", none⟩]⟩)
        "https://a.com" = some (withNavbarParam u) :=
  (getDebugUrlForPage_match_and_fallback
      ⟨some "https://live/root?a=1",
        some [⟨"p1", "https://a.com", some "https://live/p1?x=1", none⟩]⟩
      [⟨"p1", "https://a.com", some "https://live/p1?x=1", none⟩]
      "https://a.com" rfl (by decide)).1
    ⟨"p1", "https://a.com", some "https://live/p1?x=1", none⟩ (by decide)

/-- C8 counterexample: an internal failure of the close-tab operation is
swallowed inside the session manager, so the command surface reports
success rather than the claimed failure result. -/
theorem ipc_swallowed_error_counterexample :
    swallowErrors (Except.error "Close tab failed") = Except.ok () ∧
    ipcHandle (swallowErrors (Except.error "Close tab failed")) =
      { success := true, error := none } ∧
    ipcHandle (swallowErrors (Except.error "Close tab failed")) ≠
      { success := false, error := some "Close tab failed" } :=
  ⟨rfl, rfl, by decide⟩

/-- C8 (amended): every tab command returns the uniform result object and
no exception crosses the IPC boundary; errors thrown at the handler are
mapped to success=false with the message — which navigateTo does by
rethrowing — but newTab, closeTab and switchTab swallow their internal
errors, so the surface reports success=true for them. -/
theorem ipc_uniform_result (e : String) (body : Except String Unit) (connected : Bool) :
    ipcHandle (Except.error e) = { success := false, error := some e } ∧
    ipcHandle (Except.ok ()) = { success := true, error := none } ∧
    ipcHandle (swallowErrors body) = { success := true, error := none } ∧
    ipcHandle (navigateErrorBehavior connected (Except.error e)) =
      { success := false,
        error := some (if connected then e else "Browser not connected") } := by
  refine ⟨rfl, rfl, ?_, ?_⟩
  · cases body <;> rfl
  · cases connected <;> rfl
